import Mathlib

/-!
Verification of the websocket handshake and server dispatch layer of the
`wspy` repository (`websocket.py`, `server.py`).

Strings coming off the wire are modelled as `List Char` (the code decodes the
byte stream with `utf-8`/`ignore` before any parsing, so a character list is
the level at which the code itself works).  Every definition below is a direct
translation of the corresponding Python construct; the two definitions marked
"Modelled from the spec" stand in for repository files that are imported by
`server.py` but are not part of the sources (`connection.py`, `frame.py`).
-/

/-- Exceptions the modelled code can raise.  `HandshakeError` and `SSLError`
come from the repository's `errors` module; `AttributeError` and
`NotImplementedError` are the Python built-ins raised by the code paths we
model. -/
inductive PyError where
  | handshakeError (msg : List Char)
  | sslError (msg : List Char)
  | attributeError
  | notImplementedError
deriving DecidableEq

/-- `true` exactly on `HandshakeError` values. -/
def PyError.isHandshakeErr : PyError → Bool
  | .handshakeError _ => true
  | _ => false

/-- Characters stripped by Python's `str.strip()` (the contents of
`string.whitespace`). -/
def isPySpace (c : Char) : Bool :=
  c = ' ' || c = '\t' || c = '\n' || c = '\r' || c = '\x0b' || c = '\x0c'

/-- Python `value.strip()`: drop leading and trailing whitespace. -/
def pyStrip (l : List Char) : List Char :=
  ((l.dropWhile isPySpace).reverse.dropWhile isPySpace).reverse

/-- Helper for `splitOnComma`: accumulate the current field (reversed). -/
def splitCommaAux : List Char → List Char → List (List Char)
  | [], cur => [cur.reverse]
  | c :: rest, cur =>
      if c = ',' then cur.reverse :: splitCommaAux rest []
      else splitCommaAux rest (c :: cur)

/-- Python `value.split(',')`: split on every comma, keeping empty fields. -/
def splitOnComma (l : List Char) : List (List Char) :=
  splitCommaAux l []

/-- `websocket.py`, `split_stripped(value)`:
`map(str.strip, str(value).split(','))`. -/
def split_stripped (value : List Char) : List (List Char) :=
  (splitOnComma value).map pyStrip

/-- Python `sep.join(parts)`. -/
def joinWith (sep : List Char) : List (List Char) → List Char
  | [] => []
  | [x] => x
  | x :: xs => x ++ sep ++ joinWith sep xs

/-!
### The two regular expressions of `server_handshake`

`headers = re.findall(r'(.*?): ?(.*?)\r\n', raw_headers)` and
`location = re.search(r'^GET (.*) HTTP/1.1\r\n', raw_headers).group(1)`.

In Python's `re`, `.` matches any character except `'\n'`; the groups in the
findall pattern are lazy, the optional space is greedy, and `re.search`
without `re.MULTILINE` anchors `^` at position 0 only.
-/

/-- Lazy `(.*?)\r\n` (with `.` excluding `'\n'`): the shortest prefix that is
followed by a literal `"\r\n"`.  Returns that prefix and the remainder after
the `"\r\n"`, or `none` when a bare `'\n'` or the end of input is reached
first (no backtracking is ever needed past this group, since nothing of the
pattern follows it). -/
def matchY : List Char → Option (List Char × List Char)
  | [] => none
  | [_] => none
  | c1 :: c2 :: rest =>
      if c1 = '\r' ∧ c2 = '\n' then some ([], rest)
      else if c1 = '\n' then none
      else (matchY (c2 :: rest)).map (fun p => (c1 :: p.1, p.2))

/-- ` ?(.*?)\r\n`: the greedy optional space prefers to consume a space, and
falls back to the empty match when the rest of the pattern then fails. -/
def matchAfterColon (l : List Char) : Option (List Char × List Char) :=
  match l with
  | [] => matchY []
  | c :: rest =>
      if c = ' ' then
        match matchY rest with
        | some p => some p
        | none => matchY (c :: rest)
      else matchY (c :: rest)

/-- One attempt of `(.*?): ?(.*?)\r\n` at the head of `l`: lazy name group
(growing past a `':'` only when the rest of the pattern fails there), then the
colon, optional space and value group.  Returns (name, value, rest-of-input). -/
def matchNameFrom : List Char → Option (List Char × List Char × List Char)
  | [] => none
  | c :: rest =>
      if c = '\n' then none
      else if c = ':' then
        match matchAfterColon rest with
        | some (y, r) => some ([], y, r)
        | none => (matchNameFrom rest).map (fun t => (':' :: t.1, t.2.1, t.2.2))
      else (matchNameFrom rest).map (fun t => (c :: t.1, t.2.1, t.2.2))

/-- `re.findall` scanning: try a match at each position; on success continue
after the matched text (matches never overlap), on failure advance one
character.  The fuel argument makes the recursion structural; by
`matchNameFrom_length` every successful match consumes at least one character,
so fuel equal to the input length (as supplied by `findall`) never runs out. -/
def findallAux : Nat → List Char → List (List Char × List Char)
  | 0, _ => []
  | _, [] => []
  | fuel + 1, c :: rest =>
      match matchNameFrom (c :: rest) with
      | some (x, y, r) => (x, y) :: findallAux fuel r
      | none => findallAux fuel rest

/-- `re.findall(r'(.*?): ?(.*?)\r\n', raw)`: the list of (name, value) header
pairs found in `raw`. -/
def findall (raw : List Char) : List (List Char × List Char) :=
  findallAux raw.length raw

/-- The last `n` characters of `l` — Python `l[-n:]` for `n > 0` (the whole
string when shorter than `n`). -/
def lastN (n : Nat) (l : List Char) : List Char :=
  l.drop (l.length - n)

/-- The fixed 11-character tail ` HTTP/1.1\r\n` of the request-line pattern,
where each `.` of `HTTP/1.1` is the regex wildcard (any character but
`'\n'`). -/
def requestLineTail (t : List Char) : Bool :=
  match t with
  | [' ', 'H', 'T', 'T', 'P', '/', '1', c, '1', '\r', '\n'] => c ≠ '\n'
  | _ => false

/-- `re.search(r'^GET (.*) HTTP/1.1\r\n', raw)`, returning `group(1)`.
Without `re.MULTILINE` the `^` anchors at position 0 only, and since `.`
never matches `'\n'` while the pattern ends in `'\n'`, any match lies within
the first newline-terminated line of `raw`; the 11-character constant-length
pattern tail must then match the last 11 characters of that line, so the
greedy group is forced to the characters between the `"GET "` prefix and that
tail. -/
def matchRequestLine (raw : List Char) : Option (List Char) :=
  let pre := raw.takeWhile (fun c => c ≠ '\n')
  if pre.length = raw.length then none
  else
    let line := pre ++ ['\n']
    if line.take 4 = "GET ".toList ∧ requestLineTail (lastN 11 line) ∧ 15 ≤ line.length
    then some ((line.drop 4).take (line.length - 15))
    else none

/-!
### `websocket.server_handshake`

The handshake is split exactly as the code is: the unbounded header-read loop
(`recvLoop` below, for the `while raw_headers[-4:] not in ...` loop) and the
pure processing of the accumulated request text (`server_handshake`).
-/

/-- `websocket.py`, `WS_GUID`. -/
def WS_GUID : List Char := "258EAFA5-E914-47DA-95CA-C5AB0DC85B11".toList

/-- `websocket.py`, `WS_VERSION`. -/
def WS_VERSION : List Char := "13".toList

/-- `header_names = [name for name, value in headers]`. -/
def headerNames (headers : List (List Char × List Char)) : List (List Char) :=
  headers.map Prod.fst

/-- The local `header(name)` function:
`', '.join([v for n, v in headers if n == name])`. -/
def joinHeader (headers : List (List Char × List Char)) (name : List Char) :
    List Char :=
  joinWith ", ".toList ((headers.filter (fun p => p.1 == name)).map Prod.snd)

/-- The tuple of headers that MUST be present, in the order the code checks
them. -/
def requiredHeaders : List (List Char) :=
  ["Host".toList, "Upgrade".toList, "Connection".toList,
   "Sec-WebSocket-Key".toList, "Origin".toList, "Sec-WebSocket-Version".toList]

/-- `HandshakeError('missing "%s" header' % name)`. -/
def missingMsg (name : List Char) : List Char :=
  "missing \"".toList ++ name ++ "\" header".toList

/-- `HandshakeError('WebSocket version %s requested (only %s is supported)'
% (version, WS_VERSION))`. -/
def versionMsg (version : List Char) : List Char :=
  "WebSocket version ".toList ++ version ++ " requested (only ".toList ++
    WS_VERSION ++ " is supported)".toList

/-- The data a successful `server_handshake` produces: the captured request
target, the negotiated lists, the computed accept key, and the full response
text passed to `self.sock.sendall` (nothing is written on any error path,
since the single `sendall` is the last statement before the method returns). -/
structure SHOk where
  location : List Char
  protocols : List (List Char)
  extensions : List (List Char)
  accept : List Char
  response : List Char
deriving DecidableEq

/-- `websocket.server_handshake` on the accumulated request text `raw`.
`sha1` and `b64` abstract the library functions `hashlib.sha1(·).digest()`
and `base64.b64encode` (external collaborators); every theorem below holds
for all implementations of them.  `sprotocols`/`sextensions` are
`self.protocols`/`self.extensions`. -/
def server_handshake (sha1 : List Char → List Nat) (b64 : List Nat → List Char)
    (sprotocols sextensions : List (List Char)) (raw : List Char) :
    Except PyError SHOk :=
  match matchRequestLine raw with
  | none => .error .attributeError
  | some location =>
    let headers := findall raw
    let header_names := headerNames headers
    match requiredHeaders.find? (fun n => !(header_names.contains n)) with
    | some name => .error (.handshakeError (missingMsg name))
    | none =>
      let version := joinHeader headers "Sec-WebSocket-Version".toList
      if version ≠ WS_VERSION then
        .error (.handshakeError (versionMsg version))
      else
        let proto := joinHeader headers "Sec-WebSocket-Extensions".toList
        let protocols :=
          (if proto ≠ [] then split_stripped proto else []).filter
            (fun p => sprotocols.contains p)
        let ext := joinHeader headers "Sec-WebSocket-Extensions".toList
        let extensions :=
          (if ext ≠ [] then split_stripped ext else []).filter
            (fun e => sextensions.contains e)
        let key := pyStrip (joinHeader headers "Sec-WebSocket-Key".toList)
        let accept := b64 (sha1 (key ++ WS_GUID))
        let shake :=
          "HTTP/1.1 101 Web Socket Protocol Handshake\r\nUpgrade: WebSocket\r\nConnection: Upgrade\r\nWebSocket-Origin: ".toList ++
            joinHeader headers "Origin".toList ++
            "\r\nWebSocket-Location: ws://".toList ++
            joinHeader headers "Host".toList ++ location ++
            "\r\nSec-WebSocket-Accept: ".toList ++ accept ++ "\r\n".toList ++
            (if protocols ≠ [] then
              "Sec-WebSocket-Protocol: ".toList ++ joinWith ", ".toList protocols ++ "\r\n".toList
             else []) ++
            (if extensions ≠ [] then
              "Sec-WebSocket-Extensions: ".toList ++ joinWith ", ".toList extensions ++ "\r\n".toList
             else [])
        .ok { location := location, protocols := protocols,
              extensions := extensions, accept := accept,
              response := shake ++ "\r\n".toList }

/-- The text `server_handshake` passes to `self.sock.sendall` (empty on the
exception paths). -/
def writtenBytes : Except PyError SHOk → List (List Char)
  | .ok r => [r.response]
  | .error _ => []

/-- `true` exactly on `Except.ok` results. -/
def isOkResult : Except PyError SHOk → Bool
  | .ok _ => true
  | .error _ => false

/-- The negotiated protocol list of a successful handshake (`[]` on error). -/
def negotiatedProtocols : Except PyError SHOk → List (List Char)
  | .ok r => r.protocols
  | .error _ => []

/-- The negotiated-protocol computation as the spec words it (§4.1 step 7):
comma-split, trimmed values of the request's `Sec-WebSocket-Protocol` header
(empty when absent), kept in client order and filtered to the supported
list.  Stated only to be compared with what `server_handshake` computes. -/
def specNegotiatedProtocols (headers : List (List Char × List Char))
    (supported : List (List Char)) : List (List Char) :=
  let proto := joinHeader headers "Sec-WebSocket-Protocol".toList
  (if proto ≠ [] then split_stripped proto else []).filter
    (fun p => supported.contains p)

/-!
### The header-read loop, socket state, SSL, client handshake, connect
-/

/-- The loop guard `raw_headers[-4:] not in ('\r\n\r\n', '\n\n')`, negated:
`raw_headers[-4:]` is the last four characters (the whole string when it is
shorter), so the bare `'\n\n'` alternative only matches while the entire
buffer is exactly `"\n\n"`. -/
def headerTerminated (acc : List Char) : Bool :=
  lastN 4 acc == "\r\n\r\n".toList || lastN 4 acc == "\n\n".toList

/-- The header accumulation loop of `server_handshake`:
`while raw_headers[-4:] not in ('\r\n\r\n', '\n\n'): raw_headers +=
self.sock.recv(512)...`.  `chunks` is the successive results of
`self.sock.recv`; the loop has no other exit and no size check, so when the
whole (finite) chunk list is consumed without the guard ever failing the loop
is still running — modelled as `none`. -/
def recvLoop (chunks : List (List Char)) (acc : List Char) :
    Option (List Char × List (List Char)) :=
  if headerTerminated acc then some (acc, chunks)
  else
    match chunks with
    | [] => none
    | c :: rest => recvLoop rest (acc ++ c)

/-- The claim that the header read is bounded: some fixed bound `B` exists
such that the loop never buffers more than `B` characters without having
terminated (the code has no `HandshakeError` exit in this loop at all, so an
unterminated run must stay within the bound for the claim to hold). -/
def boundedHeaderRead : Prop :=
  ∃ B : Nat, ∀ chunks : List (List Char),
    recvLoop chunks [] = none → (List.flatten chunks).length ≤ B

/-- The mutable state of a `websocket` object that the modelled methods touch:
`self.handshake_started`, `self.secure`, and whether `self.sock` has been
replaced by an `ssl.wrap_socket` result. -/
structure WState where
  handshake_started : Bool
  secure : Bool
  sslWrapped : Bool
deriving DecidableEq

/-- A fresh `websocket()`: `self.secure = False; self.handshake_started =
False`. -/
def initWState : WState := ⟨false, false, false⟩

/-- `SSLError('can only enable SSL before handshake')`. -/
def sslErrorMsg : List Char := "can only enable SSL before handshake".toList

/-- `websocket.enable_ssl`: raise `SSLError` if `self.handshake_started`,
otherwise set `self.secure = True` and wrap `self.sock`. -/
def enable_ssl (w : WState) : WState × Except PyError Unit :=
  if w.handshake_started then (w, .error (.sslError sslErrorMsg))
  else ({ w with secure := true, sslWrapped := true }, .ok ())

/-- `websocket.client_handshake`: sets `self.handshake_started = True` and
raises `NotImplementedError` (the body is a TODO).  The middle component is
the data written to the socket — none. -/
def client_handshake (w : WState) :
    WState × List (List Char) × Except PyError Unit :=
  ({ w with handshake_started := true }, [], .error .notImplementedError)

/-- `websocket.server_handshake` as a method: the pure handshake of the
request text plus its effect on `self.handshake_started`, which is assigned
only by the last statement of the method — so it stays `False` whenever the
handshake raises. -/
def websocket_server_handshake (sha1 : List Char → List Nat)
    (b64 : List Nat → List Char) (sprotocols sextensions : List (List Char))
    (w : WState) (raw : List Char) : WState × Except PyError SHOk :=
  match server_handshake sha1 b64 sprotocols sextensions raw with
  | .ok r => ({ w with handshake_started := true }, .ok r)
  | .error e => (w, .error e)

/-- Attribute names provided by a Python `socket.socket` object (the external
stdlib collaborator): the methods this repository invokes on `self.sock`,
plus `connect` itself.  The point of the list is what is absent from it:
`socket.socket` has no attribute `sonnect`, the name `websocket.connect`
looks up. -/
def socketAttrs : List (List Char) :=
  ["connect".toList, "bind".toList, "listen".toList, "accept".toList,
   "recv".toList, "send".toList, "sendall".toList, "close".toList,
   "getpeername".toList, "getsockname".toList, "setsockopt".toList,
   "getsockopt".toList]

/-- Python attribute lookup on the socket: `none` means `AttributeError` is
raised at the point of the lookup, before any call happens. -/
def getattrSocket (name : List Char) : Option (List Char) :=
  if socketAttrs.contains name then some name else none

/-- An observable action on the underlying socket. -/
inductive SockEffect where
  | methodCall (name : List Char) (arg : List Char)
  | sendBytes (data : List Char)
deriving DecidableEq

/-- `websocket.connect(address)`: the body is `self.sock.sonnect(address)`
followed by `self.client_handshake()`.  The attribute lookup of `sonnect`
happens before the call and before anything is written; the middle component
lists the socket actions actually performed. -/
def websocket_connect (w : WState) (address : List Char) :
    WState × List SockEffect × Except PyError Unit :=
  match getattrSocket "sonnect".toList with
  | none => (w, [], .error .attributeError)
  | some m =>
      match client_handshake w with
      | (w2, writes, res) =>
          (w2, SockEffect.methodCall m address :: writes.map SockEffect.sendBytes, res)

/-!
### `server.py`: the `Server` dispatch loop and graceful shutdown

`frame.py` and `connection.py` are imported by `server.py` but are not among
the sources; the two definitions below marked "Modelled from the spec" stand
in for them.
-/

/-- Frame opcodes (§6 of the spec). -/
inductive Opcode where
  | continuation | text | binary | close | ping | pong
deriving DecidableEq

/-- One wire frame, reduced to the parts the shutdown broadcast uses. -/
structure Frame where
  opcode : Opcode
  payload : List Nat
deriving DecidableEq

/-- `frame.CLOSE_NORMAL`.  Modelled from the spec: `frame.py` is not among
the sources; §6 lists the close codes, `1000 NORMAL`. -/
def CLOSE_NORMAL : Nat := 1000

/-- `Connection.close(code)`.  Modelled from the spec: `connection.py` is not
among the sources; per §4.3/§6 closing sends a CLOSE frame whose payload
carries the 2-byte big-endian close code. -/
def Connection.close (code : Nat) : Frame :=
  { opcode := .close, payload := [code / 256 % 256, code % 256] }

/-- `Server.quit_gracefully`: `for client in self.clients:
client.close(CLOSE_NORMAL)` — one CLOSE(NORMAL) frame per registered client,
the registry itself untouched.  Clients are identified by the request text
that registered them. -/
def quit_gracefully (clients : List (List Char)) :
    List (List Char × Frame) :=
  clients.map (fun c => (c, Connection.close CLOSE_NORMAL))

/-- What the accept loop observes on one iteration: a connection attempt
delivering request text, or a `KeyboardInterrupt`. -/
inductive Event where
  | conn (raw : List Char)
  | interrupt

/-- `Server.run`: loop over accept events.  A connection attempt runs the
server handshake (via `websocket.accept`, which builds `websocket(sock)` —
note: with the default empty `protocols`/`extensions` lists); on success the
client is appended to `self.clients`, on any exception the loop logs and
continues.  `KeyboardInterrupt` breaks the loop and `quit_gracefully` runs.
`none` means the loop is still blocked in `accept` after all events. -/
def runEvents (sha1 : List Char → List Nat) (b64 : List Nat → List Char)
    (clients : List (List Char)) :
    List Event → Option (List (List Char) × List (List Char × Frame))
  | [] => none
  | Event.conn raw :: rest =>
      match server_handshake sha1 b64 [] [] raw with
      | .ok _ => runEvents sha1 b64 (clients ++ [raw]) rest
      | .error _ => runEvents sha1 b64 clients rest
  | Event.interrupt :: _ => some (clients, quit_gracefully clients)

/-!
### Concrete inputs and instantiations used by the theorems below
-/

deriving instance DecidableEq for Except

set_option maxRecDepth 400000

/-- A concrete instantiation of the abstract `sha1` collaborator, used only to
instantiate universally quantified theorems in their witnesses. -/
def someSha1 : List Char → List Nat := fun l => l.map Char.toNat

/-- A concrete instantiation of the abstract `b64encode` collaborator. -/
def someB64 : List Nat → List Char := fun l => l.map Char.ofNat

/-- A well-formed upgrade request that offers `Sec-WebSocket-Protocol: chat`
and carries no `Sec-WebSocket-Extensions` header. -/
def rawProto : List Char :=
  "GET /chat HTTP/1.1\r\nHost: h\r\nUpgrade: u\r\nConnection: c\r\nSec-WebSocket-Key: k\r\nOrigin: o\r\nSec-WebSocket-Protocol: chat\r\nSec-WebSocket-Version: 13\r\n\r\n".toList

/-- A well-formed upgrade request with all required headers and version 13. -/
def rawOk : List Char :=
  "GET / HTTP/1.1\r\nHost: h\r\nUpgrade: u\r\nConnection: c\r\nSec-WebSocket-Key: k\r\nOrigin: o\r\nSec-WebSocket-Version: 13\r\n\r\n".toList

/-- A request with all required headers but `Sec-WebSocket-Version: 8`. -/
def rawV8 : List Char :=
  "GET / HTTP/1.1\r\nHost: h\r\nUpgrade: u\r\nConnection: c\r\nSec-WebSocket-Key: k\r\nOrigin: o\r\nSec-WebSocket-Version: 8\r\n\r\n".toList

/-- A GET request whose headers lack everything but `Host`. -/
def rawMissing : List Char := "GET / HTTP/1.1\r\nHost: x\r\n\r\n".toList

/-- A request whose request line is not `GET <path> HTTP/1.1`. -/
def rawPost : List Char :=
  "POST / HTTP/1.1\r\nHost: h\r\nUpgrade: u\r\nConnection: c\r\nSec-WebSocket-Key: k\r\nOrigin: o\r\nSec-WebSocket-Version: 13\r\n\r\n".toList

/-- A GET request with no headers at all (so `Host` is the first missing
required header). -/
def rawBare : List Char := "GET / HTTP/1.1\r\n\r\n".toList

/-- The result of a successful `server_handshake` on `rawOk` (the `.ok`
payload, extracted). -/
def rOk : SHOk :=
  match server_handshake someSha1 someB64 [] [] rawOk with
  | .ok r => r
  | .error _ => ⟨[], [], [], [], []⟩

/-!
### Lemmas
-/

lemma matchY_length {l y r : List Char} (h : matchY l = some (y, r)) :
    r.length < l.length := by
  induction l using matchY.induct generalizing y r with
  | case1 => simp [matchY] at h
  | case2 c => simp [matchY] at h
  | case3 c1 c2 rest h12 =>
      rw [matchY, if_pos h12] at h
      simp only [Option.some.injEq, Prod.mk.injEq] at h
      obtain ⟨-, h2⟩ := h
      subst h2; simp; omega
  | case4 c2 rest h12 =>
      rw [matchY, if_neg h12, if_pos rfl] at h
      simp at h
  | case5 c1 c2 rest h12 h1 ih =>
      rw [matchY, if_neg h12, if_neg h1] at h
      match hm : matchY (c2 :: rest) with
      | none => rw [hm] at h; simp at h
      | some (y0, r0) =>
          rw [hm] at h
          simp only [Option.map_some', Option.some.injEq, Prod.mk.injEq] at h
          obtain ⟨-, h2⟩ := h
          subst h2
          have := ih hm
          simp at this ⊢; omega

lemma matchAfterColon_length {l y r : List Char}
    (h : matchAfterColon l = some (y, r)) : r.length < l.length := by
  match l with
  | [] => simp [matchAfterColon, matchY] at h
  | c :: rest =>
      rw [matchAfterColon] at h
      by_cases hc : c = ' '
      · rw [if_pos hc] at h
        match hm : matchY rest with
        | some p =>
            rw [hm] at h
            simp only [Option.some.injEq] at h
            subst h
            have := matchY_length hm
            simp; omega
        | none =>
            rw [hm] at h
            exact matchY_length h
      · rw [if_neg hc] at h
        exact matchY_length h

lemma matchNameFrom_length {l x y r : List Char}
    (h : matchNameFrom l = some (x, y, r)) : r.length < l.length := by
  induction l using matchNameFrom.induct generalizing x y r with
  | case1 => simp [matchNameFrom] at h
  | case2 rest =>
      rw [matchNameFrom, if_pos rfl] at h; simp at h
  | case3 rest y0 r0 hma hcn =>
      rw [matchNameFrom, if_neg hcn, if_pos rfl, hma] at h
      simp only [Option.some.injEq, Prod.mk.injEq] at h
      obtain ⟨-, -, h3⟩ := h
      subst h3
      have := matchAfterColon_length hma
      simp; omega
  | case4 rest hma hcn ih =>
      rw [matchNameFrom, if_neg hcn, if_pos rfl, hma] at h
      match hm2 : matchNameFrom rest with
      | none => rw [hm2] at h; simp at h
      | some (x0, y0, r0) =>
          rw [hm2] at h
          simp only [Option.map_some', Option.some.injEq, Prod.mk.injEq] at h
          obtain ⟨-, -, h3⟩ := h
          subst h3
          have := ih hm2
          simp; omega
  | case5 c rest hn hc ih =>
      rw [matchNameFrom, if_neg hn, if_neg hc] at h
      match hm : matchNameFrom rest with
      | none => rw [hm] at h; simp at h
      | some (x0, y0, r0) =>
          rw [hm] at h
          simp only [Option.map_some', Option.some.injEq, Prod.mk.injEq] at h
          obtain ⟨-, -, h3⟩ := h
          subst h3
          have := ih hm
          simp; omega


lemma server_handshake_missing (sha1 : List Char → List Nat)
    (b64 : List Nat → List Char) (sp se : List (List Char))
    (raw loc m : List Char) (hl : matchRequestLine raw = some loc)
    (hf : requiredHeaders.find?
      (fun n => !((headerNames (findall raw)).contains n)) = some m) :
    server_handshake sha1 b64 sp se raw =
      .error (.handshakeError (missingMsg m)) := by
  unfold server_handshake
  rw [hl]
  simp only [hf]

lemma server_handshake_version (sha1 : List Char → List Nat)
    (b64 : List Nat → List Char) (sp se : List (List Char))
    (raw loc : List Char) (hl : matchRequestLine raw = some loc)
    (hf : requiredHeaders.find?
      (fun n => !((headerNames (findall raw)).contains n)) = none)
    (hv : joinHeader (findall raw) "Sec-WebSocket-Version".toList ≠ WS_VERSION) :
    server_handshake sha1 b64 sp se raw =
      .error (.handshakeError (versionMsg
        (joinHeader (findall raw) "Sec-WebSocket-Version".toList))) := by
  unfold server_handshake
  rw [hl]
  simp only [hf, if_pos hv]

lemma headerTerminated_of_no_newline {acc : List Char} (h : '\n' ∉ acc) :
    headerTerminated acc = false := by
  have hsub : lastN 4 acc ⊆ acc := List.drop_subset _ _
  unfold headerTerminated
  rw [Bool.or_eq_false_iff, beq_eq_false_iff_ne, beq_eq_false_iff_ne]
  refine ⟨?_, ?_⟩
  · intro he
    exact h (hsub (by rw [he]; decide))
  · intro he
    exact h (hsub (by rw [he]; decide))

lemma recvLoop_all_a (n : Nat) (acc : List Char) (h : '\n' ∉ acc) :
    recvLoop (List.replicate n ['a']) acc = none := by
  induction n generalizing acc with
  | zero =>
      rw [recvLoop.eq_def, headerTerminated_of_no_newline h]
      simp
  | succ k ih =>
      rw [List.replicate_succ, recvLoop.eq_def,
        headerTerminated_of_no_newline h]
      simp only [Bool.false_eq_true, if_false]
      refine ih (acc ++ ['a']) ?_
      intro hm
      rcases List.mem_append.mp hm with h1 | h1
      · exact h h1
      · simp at h1

lemma flatten_replicate_length (n : Nat) :
    (List.flatten (List.replicate n (['a'] : List Char))).length = n := by
  induction n with
  | zero => rfl
  | succ k ih => rw [List.replicate_succ, List.flatten_cons]; simp [ih]

lemma recvLoop_some_terminated (chunks : List (List Char)) :
    ∀ acc res rest, recvLoop chunks acc = some (res, rest) →
      headerTerminated res = true := by
  induction chunks with
  | nil =>
      intro acc res rest h
      rw [recvLoop.eq_def] at h
      split at h
      · rename_i ht
        simp only [Option.some.injEq, Prod.mk.injEq] at h
        obtain ⟨h1, -⟩ := h
        subst h1
        exact ht
      · exact Option.noConfusion h
  | cons c rest' ih =>
      intro acc res rest h
      rw [recvLoop.eq_def] at h
      split at h
      · rename_i ht
        simp only [Option.some.injEq, Prod.mk.injEq] at h
        obtain ⟨h1, -⟩ := h
        subst h1
        exact ht
      · exact ih _ _ _ h

/-!
### The claims
-/

/-- C1: the claim says the negotiated protocols are computed from the
request's `Sec-WebSocket-Protocol` header; the code instead reads the
`Sec-WebSocket-Extensions` header at that point (`proto =
header('Sec-WebSocket-Extensions')`).  On a request offering
`Sec-WebSocket-Protocol: chat` (and no extensions header) to a server
supporting `chat`, the handshake succeeds but negotiates the empty list,
while the computation the claim and spec describe yields `["chat"]`. -/
theorem C1_protocols_read_from_extensions_header :
    isOkResult (server_handshake someSha1 someB64 ["chat".toList] []
      rawProto) = true ∧
    negotiatedProtocols (server_handshake someSha1 someB64 ["chat".toList] []
      rawProto) = [] ∧
    specNegotiatedProtocols (findall rawProto) ["chat".toList] =
      ["chat".toList] ∧
    negotiatedProtocols (server_handshake someSha1 someB64 ["chat".toList] []
        rawProto) ≠
      specNegotiatedProtocols (findall rawProto) ["chat".toList] := by
  refine ⟨by decide, by decide, by decide, by decide⟩

/-- C2: a parseable GET upgrade request in which some required header (Host,
Upgrade, Connection, Sec-WebSocket-Key, Origin, Sec-WebSocket-Version) is
absent makes `server_handshake` raise `HandshakeError` naming a missing
required header, and `Server.run` then continues without appending anything
to the client registry. -/
theorem C2_missing_required_header_rejected
    (sha1 : List Char → List Nat) (b64 : List Nat → List Char)
    (sp se : List (List Char)) (raw : List Char)
    (hline : ∃ loc, matchRequestLine raw = some loc)
    (hmiss : ∃ n, n ∈ requiredHeaders ∧
      (headerNames (findall raw)).contains n = false) :
    ∃ m, m ∈ requiredHeaders ∧
      (headerNames (findall raw)).contains m = false ∧
      server_handshake sha1 b64 sp se raw =
        .error (.handshakeError (missingMsg m)) ∧
      ∀ clients rest,
        runEvents sha1 b64 clients (Event.conn raw :: rest) =
          runEvents sha1 b64 clients rest := by
  obtain ⟨loc, hl⟩ := hline
  obtain ⟨n, hn, hc⟩ := hmiss
  have hs : (requiredHeaders.find?
      (fun n => !((headerNames (findall raw)).contains n))).isSome := by
    rw [List.find?_isSome]
    refine ⟨n, hn, ?_⟩
    show (!((headerNames (findall raw)).contains n)) = true
    rw [hc]
    rfl
  obtain ⟨m, hm⟩ := Option.isSome_iff_exists.mp hs
  refine ⟨m, List.mem_of_find?_eq_some hm, ?_, ?_, ?_⟩
  · have := List.find?_some hm
    simpa using this
  · exact server_handshake_missing _ _ _ _ _ _ _ hl hm
  · intro clients rest
    have h2 := server_handshake_missing sha1 b64 [] [] raw loc m hl hm
    simp only [runEvents, h2]

/-- C2 witness: on `GET / HTTP/1.1` with only a `Host` header, the handshake
raises the missing-header `HandshakeError` and the accept loop registers
nothing. -/
theorem C2_missing_required_header_rejected_witness :
    ∃ m, m ∈ requiredHeaders ∧
      (headerNames (findall rawMissing)).contains m = false ∧
      server_handshake someSha1 someB64 [] [] rawMissing =
        .error (.handshakeError (missingMsg m)) ∧
      ∀ clients rest,
        runEvents someSha1 someB64 clients (Event.conn rawMissing :: rest) =
          runEvents someSha1 someB64 clients rest :=
  C2_missing_required_header_rejected someSha1 someB64 [] [] rawMissing
    ⟨['/'], by decide⟩ ⟨"Upgrade".toList, by decide, by decide⟩

/-- C3: a parseable GET upgrade request whose `Sec-WebSocket-Version` header
is present with a value other than `"13"` makes `server_handshake` raise a
`HandshakeError` and nothing is written to the stream; when all required
headers are present (so that the code reaches the version check, which
follows the missing-header checks) the error is the version-mismatch one. -/
theorem C3_version_mismatch_rejected
    (sha1 : List Char → List Nat) (b64 : List Nat → List Char)
    (sp se : List (List Char)) (raw : List Char)
    (hline : ∃ loc, matchRequestLine raw = some loc)
    (_hpres : "Sec-WebSocket-Version".toList ∈ headerNames (findall raw))
    (hver : joinHeader (findall raw) "Sec-WebSocket-Version".toList ≠
      "13".toList) :
    ∃ msg, server_handshake sha1 b64 sp se raw =
        .error (.handshakeError msg) ∧
      writtenBytes (server_handshake sha1 b64 sp se raw) = [] ∧
      ((∀ n ∈ requiredHeaders, (headerNames (findall raw)).contains n = true) →
        msg = versionMsg
          (joinHeader (findall raw) "Sec-WebSocket-Version".toList)) := by
  obtain ⟨loc, hl⟩ := hline
  cases hf : requiredHeaders.find?
      (fun n => !((headerNames (findall raw)).contains n)) with
  | some m =>
      refine ⟨missingMsg m, server_handshake_missing _ _ _ _ _ _ _ hl hf,
        ?_, ?_⟩
      · rw [server_handshake_missing _ _ _ _ _ _ _ hl hf]
        rfl
      · intro hall
        exfalso
        have h1 := List.find?_some hf
        have h2 := List.mem_of_find?_eq_some hf
        have h3 := hall m h2
        rw [h3] at h1
        exact Bool.noConfusion h1
  | none =>
      refine ⟨_, server_handshake_version _ _ _ _ _ _ hl hf hver, ?_,
        fun _ => rfl⟩
      rw [server_handshake_version _ _ _ _ _ _ hl hf hver]
      rfl

/-- C3 witness: a complete request with `Sec-WebSocket-Version: 8` gets the
version-mismatch `HandshakeError` and no response bytes. -/
theorem C3_version_mismatch_rejected_witness :
    server_handshake someSha1 someB64 [] [] rawV8 =
      .error (.handshakeError (versionMsg
        (joinHeader (findall rawV8) "Sec-WebSocket-Version".toList))) ∧
    writtenBytes (server_handshake someSha1 someB64 [] [] rawV8) = [] := by
  obtain ⟨msg, he, hw, hv⟩ := C3_version_mismatch_rejected someSha1 someB64
    [] [] rawV8 ⟨['/'], by decide⟩ (by decide) (by decide)
  rw [hv (by decide)] at he
  exact ⟨he, hw⟩

/-- C4: whenever `server_handshake` succeeds, the accept value is
`b64encode(sha1(strip(Sec-WebSocket-Key) + WS_GUID))` — with the key as the
`', '`-joined header value, whitespace-stripped — and the 101 response text
carries exactly that value on its `Sec-WebSocket-Accept` line. -/
theorem C4_accept_key_formula (sha1 : List Char → List Nat)
    (b64 : List Nat → List Char) (sp se : List (List Char))
    (raw : List Char) (r : SHOk)
    (hok : server_handshake sha1 b64 sp se raw = .ok r) :
    r.accept = b64 (sha1 (pyStrip
      (joinHeader (findall raw) "Sec-WebSocket-Key".toList) ++ WS_GUID)) ∧
    r.response =
      "HTTP/1.1 101 Web Socket Protocol Handshake\r\nUpgrade: WebSocket\r\nConnection: Upgrade\r\nWebSocket-Origin: ".toList ++
        joinHeader (findall raw) "Origin".toList ++
        "\r\nWebSocket-Location: ws://".toList ++
        joinHeader (findall raw) "Host".toList ++ r.location ++
        "\r\nSec-WebSocket-Accept: ".toList ++ r.accept ++ "\r\n".toList ++
        (if r.protocols ≠ [] then
          "Sec-WebSocket-Protocol: ".toList ++
            joinWith ", ".toList r.protocols ++ "\r\n".toList
         else []) ++
        (if r.extensions ≠ [] then
          "Sec-WebSocket-Extensions: ".toList ++
            joinWith ", ".toList r.extensions ++ "\r\n".toList
         else []) ++
        "\r\n".toList := by
  unfold server_handshake at hok
  cases hml : matchRequestLine raw with
  | none => rw [hml] at hok; exact absurd hok (by simp)
  | some loc =>
      rw [hml] at hok
      cases hf : requiredHeaders.find?
          (fun n => !((headerNames (findall raw)).contains n)) with
      | some m =>
          simp only [hf] at hok
          exact absurd hok (by simp)
      | none =>
          simp only [hf] at hok
          by_cases hv : joinHeader (findall raw)
              "Sec-WebSocket-Version".toList ≠ WS_VERSION
          · rw [if_pos hv] at hok
            exact absurd hok (by simp)
          · rw [if_neg hv] at hok
            simp only [Except.ok.injEq] at hok
            subst hok
            refine ⟨rfl, ?_⟩
            simp [List.append_assoc]

/-- C4 witness: the accept formula evaluated on a complete concrete request,
with concrete stand-ins for the two library functions. -/
theorem C4_accept_key_formula_witness :
    rOk.accept = someB64 (someSha1 (pyStrip
      (joinHeader (findall rawOk) "Sec-WebSocket-Key".toList) ++ WS_GUID)) :=
  (C4_accept_key_formula someSha1 someB64 [] [] rawOk rOk (by decide)).1

/-- C5 counterexample: `client_handshake` writes nothing and raises
`NotImplementedError` — not a `HandshakeError`, and no GET request is sent —
so the claim that the client-role handshake is implemented fails on the
code. -/
theorem C5_client_handshake_not_implemented_cex :
    (client_handshake initWState).2.2 = .error .notImplementedError ∧
    (client_handshake initWState).2.1 = [] ∧
    PyError.isHandshakeErr .notImplementedError = false :=
  ⟨rfl, rfl, rfl⟩

/-- C5 (amended): `client_handshake` is not implemented — for every socket
state it marks the handshake as started, writes nothing, and raises
`NotImplementedError`. -/
theorem C5_client_handshake_amended (w : WState) :
    client_handshake w =
      ({ w with handshake_started := true }, [],
        .error .notImplementedError) :=
  rfl

/-- C6 counterexample: no bound `B` makes the header-read loop terminate or
fail within `B` buffered bytes — for every claimed bound, a stream of `B + 1`
single-character chunks is consumed whole (more than `B` bytes buffered)
without the loop exiting and without any `HandshakeError` (the loop body has
no error exit at all). -/
theorem C6_header_read_unbounded_cex : ¬ boundedHeaderRead := by
  rintro ⟨B, hB⟩
  have h1 := hB (List.replicate (B + 1) ['a']) (recvLoop_all_a _ _ (by simp))
  rw [flatten_replicate_length] at h1
  omega

/-- C6 (amended): the header-read loop exits only by observing the
terminator (`raw_headers[-4:]` equal to `"\r\n\r\n"`, or the whole buffer
equal to `"\n\n"`); it enforces no bound: for every `B` there is an incoming
byte stream on which it buffers more than `B` bytes without terminating and
without raising. -/
theorem C6_header_read_amended :
    (∀ chunks acc rest, recvLoop chunks [] = some (acc, rest) →
      headerTerminated acc = true) ∧
    (∀ B : Nat, recvLoop (List.replicate (B + 1) ['a']) [] = none ∧
      B < (List.flatten (List.replicate (B + 1) ['a'])).length) := by
  constructor
  · intro chunks acc rest h
    exact recvLoop_some_terminated chunks [] acc rest h
  · intro B
    refine ⟨recvLoop_all_a _ _ (by simp), ?_⟩
    rw [flatten_replicate_length]
    omega

/-- C6 witness: a stream delivering a terminated header block in one chunk
does exit the loop with the terminator observed. -/
theorem C6_header_read_amended_witness :
    headerTerminated "GET\r\n\r\n".toList = true :=
  C6_header_read_amended.1 ["GET\r\n\r\n".toList] "GET\r\n\r\n".toList []
    (by decide)

/-- C7: on a request whose request line is not `GET <path> HTTP/1.1` the
code raises `AttributeError` (from `re.search(...).group(1)` on a
non-match), not the `HandshakeError` the claim and the method's own
docstring promise; the `Server.run` loop survives it through its generic
`except Exception` branch (here: the loop goes on to the next event and the
registry stays empty). -/
theorem C7_bad_request_line_attribute_error :
    server_handshake someSha1 someB64 [] [] rawPost =
      .error .attributeError ∧
    PyError.isHandshakeErr .attributeError = false ∧
    runEvents someSha1 someB64 [] [Event.conn rawPost, Event.interrupt] =
      some ([], []) := by
  refine ⟨by decide, rfl, by decide⟩

/-- C8: on `KeyboardInterrupt` the accept loop stops (later events are
ignored), the registry is left as it is, and `quit_gracefully` sends one
CLOSE frame with code `CLOSE_NORMAL = 1000` (payload bytes `[3, 232]`,
big-endian 1000) to every registered client. -/
theorem C8_interrupt_closes_all_clients (sha1 : List Char → List Nat)
    (b64 : List Nat → List Char) (clients : List (List Char))
    (rest : List Event) :
    runEvents sha1 b64 clients (Event.interrupt :: rest) =
      some (clients,
        clients.map (fun c => (c, Connection.close CLOSE_NORMAL))) ∧
    Connection.close CLOSE_NORMAL =
      { opcode := Opcode.close, payload := [3, 232] } ∧
    CLOSE_NORMAL = 1000 := by
  refine ⟨?_, rfl, rfl⟩
  simp only [runEvents, quit_gracefully]

/-- C9 counterexample: `handshake_started` is assigned only by the last
statement of `server_handshake`, so a handshake that was entered but raised
(here: missing `Host` header) leaves it `False`, and a subsequent
`enable_ssl` succeeds and wraps the socket — contradicting the claim that
once a handshake has been entered every `enable_ssl` call raises `SSLError`
and leaves the socket unwrapped. -/
theorem C9_enable_ssl_after_failed_handshake_cex :
    (websocket_server_handshake someSha1 someB64 [] [] initWState
      rawBare).2 =
      .error (.handshakeError (missingMsg "Host".toList)) ∧
    (websocket_server_handshake someSha1 someB64 [] []
      initWState rawBare).1.handshake_started = false ∧
    enable_ssl (websocket_server_handshake someSha1 someB64 [] []
        initWState rawBare).1 =
      ({ handshake_started := false, secure := true, sslWrapped := true },
        .ok ()) := by
  refine ⟨by decide, by decide, by decide⟩

/-- C9 (amended): `enable_ssl` succeeds (setting `secure` and wrapping the
socket) exactly when `handshake_started` is false, and raises `SSLError`
leaving the state untouched when it is true; `handshake_started` becomes
true when `server_handshake` returns successfully, or as soon as
`client_handshake` is entered — not upon merely entering
`server_handshake`. -/
theorem C9_enable_ssl_amended (w : WState) :
    (w.handshake_started = false →
      enable_ssl w =
        ({ w with secure := true, sslWrapped := true }, .ok ())) ∧
    (w.handshake_started = true →
      enable_ssl w = (w, .error (.sslError sslErrorMsg))) ∧
    (∀ sha1 b64 sp se raw r,
      (websocket_server_handshake sha1 b64 sp se w raw).2 = .ok r →
      (websocket_server_handshake sha1 b64 sp se w
        raw).1.handshake_started = true) ∧
    (client_handshake w).1.handshake_started = true := by
  refine ⟨?_, ?_, ?_, rfl⟩
  · intro h
    rw [enable_ssl, h]
    simp
  · intro h
    rw [enable_ssl, h]
    simp
  · intro sha1 b64 sp se raw r hok
    unfold websocket_server_handshake at hok ⊢
    cases hs : server_handshake sha1 b64 sp se raw with
    | ok r2 => rfl
    | error e => rw [hs] at hok; exact Except.noConfusion hok

/-- C9 witness: on a fresh websocket (no handshake started) `enable_ssl`
succeeds and wraps the socket. -/
theorem C9_enable_ssl_amended_witness :
    enable_ssl initWState =
      ({ initWState with secure := true, sslWrapped := true }, .ok ()) :=
  (C9_enable_ssl_amended initWState).1 rfl

/-- C10: for every socket state and address, `websocket.connect` raises
`AttributeError` at the lookup of the misspelt attribute `sonnect` — before
the underlying socket's `connect` (which does exist) is invoked and before
any bytes are written — so the client-side connection path can never
complete. -/
theorem C10_connect_always_fails (w : WState) (address : List Char) :
    websocket_connect w address = (w, [], .error .attributeError) ∧
    getattrSocket "sonnect".toList = none ∧
    socketAttrs.contains "connect".toList = true :=
  ⟨rfl, rfl, rfl⟩
